import Mathlib

/-!
# Nationale Vacaturebank MCP server

A shallow embedding of the upstream client (`internal/api/client.go`,
`internal/api/errors.go`), the tool handlers (`internal/handlers/mcp_handlers.go`)
and the data types of `pkg/nvb/types.go`.

Conventions of the embedding.

* A Go `string` is a byte sequence.  A Lean `String` `s` stands for the Go string whose
  bytes are `utf8Bytes s`; results that need not be valid UTF-8 are byte lists.
* Go `int` values are modelled by `Int`; the code only compares and prints them.
* Go `float64` values are modelled by `Float64` below (sign, mantissa, binary exponent,
  infinities and NaN), so that `%.6f` and `%.0f` can be computed exactly.
* Behaviour that lives outside the repository (the HTTP transport, `net/url.Parse`,
  `strconv.ParseFloat`, `encoding/json`, the accessors of `mcp.CallToolRequest`) is a
  field of `Env` or of `CallToolRequest`: every theorem quantifies over it.
* Every client operation returns, next to its result, the list of URLs on which
  `httpClient.Do` was invoked, so that "no request is made" can be stated.
* The `context.Context` argument of the client methods only reaches the transport, whose
  behaviour is the field `httpDo` of `Env`; it is not a parameter of the model.  The
  interface `NationalevacaturebankAPI` of `types.go` declares the four methods without
  that argument and is not modelled.
-/

namespace NVB

/-! ## Values shared with the Go runtime -/

/-- A Go `error` created outside the repository; only its `Error()` text is observable. -/
structure GoError where
  text : String
deriving DecidableEq, Repr

/-- The dynamic values stored in `ValidationError.Value` (an `interface{}`): the code
stores either a `string` or an `int`. -/
inductive GoValue where
  | str (s : String)
  | int (n : Int)
deriving DecidableEq, Repr

/-- Formatting of a `GoValue` by the verb `%v`. -/
def GoValue.format : GoValue → String
  | .str s => s
  | .int n => toString n

/-- IEEE-754 double precision values.  `finite neg m e` denotes `(-1)^neg * m * 2^e`. -/
inductive Float64 where
  | finite (neg : Bool) (mant : Nat) (exp : Int)
  | inf (neg : Bool)
  | nan
deriving DecidableEq, Repr

/-- The Go comparison `x != 0` on `float64`: false exactly for `+0` and `-0`. -/
def Float64.neZero : Float64 → Bool
  | .finite _ 0 _ => false
  | _ => true

/-- Rounding of `num / den` to the nearest integer, ties to even. -/
def roundHalfEven (num den : Nat) : Nat :=
  let q := num / den
  let r := num % den
  if den < 2 * r ∨ (2 * r = den ∧ q % 2 = 1) then q + 1 else q

/-- The integer nearest to `m * 2^e * 10^prec` (ties to even). -/
def scaledDecimal (prec m : Nat) : Int → Nat
  | Int.ofNat k => m * 2 ^ k * 10 ^ prec
  | Int.negSucc k => roundHalfEven (m * 10 ^ prec) (2 ^ (k + 1))

/-- Decimal digits of `n`, padded on the left with zeros to at least `width` characters. -/
def zeroPad (width n : Nat) : String :=
  let s := toString n
  String.mk (List.replicate (width - s.length) '0') ++ s

/-- Formatting by `fmt.Sprintf("%.<prec>f", x)`: the exact value rounded to `prec` decimals,
ties to even. -/
def Float64.formatFixed (prec : Nat) : Float64 → String
  | .nan => "NaN"
  | .inf false => "+Inf"
  | .inf true => "-Inf"
  | .finite neg m e =>
    let n := scaledDecimal prec m e
    let sign := if neg then "-" else ""
    if prec = 0 then sign ++ toString n
    else sign ++ toString (n / 10 ^ prec) ++ "." ++ zeroPad prec (n % 10 ^ prec)

/-! ## Error taxonomy (`internal/api/errors.go`) -/

/-- The Go struct `APIError`. -/
structure APIError where
  StatusCode : Int
  Message : String
  Endpoint : String
  Cause : Option GoError
deriving DecidableEq, Repr

/-- The method `(*APIError).Error`. -/
def APIError.Error (e : APIError) : String :=
  match e.Cause with
  | some c =>
    "API error " ++ toString e.StatusCode ++ " at " ++ e.Endpoint ++ ": " ++ e.Message
      ++ " (caused by: " ++ c.text ++ ")"
  | none =>
    "API error " ++ toString e.StatusCode ++ " at " ++ e.Endpoint ++ ": " ++ e.Message

/-- The constructor `NewAPIError`. -/
def NewAPIError (statusCode : Int) (message endpoint : String) (cause : Option GoError) :
    APIError :=
  { StatusCode := statusCode, Message := message, Endpoint := endpoint, Cause := cause }

/-- The Go struct `ValidationError`. -/
structure ValidationError where
  Parameter : String
  Value : GoValue
  Message : String
deriving DecidableEq, Repr

/-- The method `(*ValidationError).Error`. -/
def ValidationError.Error (e : ValidationError) : String :=
  "validation error for parameter '" ++ e.Parameter ++ "' (value: " ++ e.Value.format ++ "): "
    ++ e.Message

/-- The constructor `NewValidationError`. -/
def NewValidationError (parameter : String) (value : GoValue) (message : String) :
    ValidationError :=
  { Parameter := parameter, Value := value, Message := message }

/-- The two kinds of `error` a client operation returns. -/
inductive ClientError where
  | api (e : APIError)
  | validation (e : ValidationError)
deriving DecidableEq, Repr

/-- The `Error()` text of a client error. -/
def ClientError.Error : ClientError → String
  | .api e => e.Error
  | .validation e => e.Error

/-! ## Data types (`pkg/nvb/types.go`) -/

/-- The Go struct `FunctionTitlesResponse`. -/
structure FunctionTitlesResponse where
  Suggestions : List String
deriving DecidableEq, Repr

/-- The Go struct `Coordinates`. -/
structure Coordinates where
  Latitude : Float64
  Longitude : Float64
deriving DecidableEq, Repr

/-- The Go struct `GeoLocationResponse`. -/
structure GeoLocationResponse where
  CityCenter : Coordinates
  CityName : String
deriving DecidableEq, Repr

/-- The anonymous struct decoded by `GetGeoLocation`: coordinates arrive as strings. -/
structure RawGeoLocation where
  Latitude : String
  Longitude : String
  CityName : String
deriving DecidableEq, Repr

/-- The anonymous struct `Job.Company`; its field `Type` is named `CompanyType` here. -/
structure Company where
  Name : String
  Website : String
  Slug : String
  CompanyType : String
deriving DecidableEq, Repr

/-- The anonymous structs `Job.Salary` and `Job.WorkingHours`. -/
structure MinMax where
  Min : Int
  Max : Int
deriving DecidableEq, Repr

/-- The Go struct `Job`. -/
structure Job where
  ID : String
  Title : String
  DcoTitle : String
  Description : String
  Company : Company
  Salary : MinMax
  ContractType : String
  CareerLevel : String
  Categories : List String
  Industries : List String
  StartDate : String
  EndDate : String
  Status : String
  WorkingHours : MinMax
deriving DecidableEq, Repr

/-- The anonymous struct `JobsResponse.Links`: four `href` strings. -/
structure Links where
  Self : String
  First : String
  Last : String
  Next : String
deriving DecidableEq, Repr

/-- The Go struct `JobsResponse`. -/
structure JobsResponse where
  Page : Int
  Limit : Int
  Pages : Int
  Total : Int
  Links : Links
  Jobs : List Job
deriving DecidableEq, Repr

/-- The Go struct `JobSearchParams`; the field `Sort` is named `SortKey` here, `Sort` being
reserved in Lean. -/
structure JobSearchParams where
  Page : Int
  Limit : Int
  SortKey : String
  City : String
  JobTitle : String
  Latitude : Float64
  Longitude : Float64
  Distance : Float64
deriving DecidableEq, Repr

/-! ## URL escaping (`net/url`, standard library)

The functions `escape`, `shouldEscape` and `unescape` of `net/url`, restricted to the two
modes the client uses. -/

/-- UTF-8 encoding of one code point, as a list of bytes. -/
def utf8EncodeChar (c : Char) : List Nat :=
  let v := c.toNat
  if v < 0x80 then [v]
  else if v < 0x800 then [0xC0 + v / 64, 0x80 + v % 64]
  else if v < 0x10000 then [0xE0 + v / 4096, 0x80 + v / 64 % 64, 0x80 + v % 64]
  else [0xF0 + v / 262144, 0x80 + v / 4096 % 64, 0x80 + v / 64 % 64, 0x80 + v % 64]

/-- The bytes of the Go string denoted by `s`. -/
def utf8Bytes (s : String) : List Nat :=
  s.data.flatMap utf8EncodeChar

/-- The string whose bytes are the given ASCII codes. -/
def asciiString (bs : List Nat) : String :=
  String.mk (bs.map Char.ofNat)

/-- The escaping modes of `net/url` used by the client. -/
inductive encoding where
  | encodePathSegment
  | encodeQueryComponent
deriving DecidableEq, Repr

/-- The function `shouldEscape` of `net/url` on a byte `c`. -/
def shouldEscape (c : Nat) (mode : encoding) : Bool :=
  -- unreserved characters (alphanum)
  if (97 ≤ c ∧ c ≤ 122) ∨ (65 ≤ c ∧ c ≤ 90) ∨ (48 ≤ c ∧ c ≤ 57) then false
  -- unreserved characters (mark): '-', '_', '.', '~'
  else if c = 45 ∨ c = 95 ∨ c = 46 ∨ c = 126 then false
  -- reserved characters: '$', '&', '+', ',', '/', ':', ';', '=', '?', '@'
  else if c = 36 ∨ c = 38 ∨ c = 43 ∨ c = 44 ∨ c = 47 ∨ c = 58 ∨ c = 59 ∨ c = 61 ∨ c = 63
      ∨ c = 64 then
    match mode with
    | .encodePathSegment => decide (c = 47 ∨ c = 59 ∨ c = 44 ∨ c = 63)
    | .encodeQueryComponent => true
  else true

/-- The table `upperhex` of `net/url`: the digit `"0123456789ABCDEF"[n]`. -/
def upperhex (n : Nat) : Nat :=
  if n < 10 then 48 + n else 55 + n

/-- The bytes written by `escape` for the input byte `c`. -/
def escapeByte (mode : encoding) (c : Nat) : List Nat :=
  if c = 32 ∧ mode = .encodeQueryComponent then [43]
  else if shouldEscape c mode then [37, upperhex (c / 16), upperhex (c % 16)]
  else [c]

/-- The function `escape` of `net/url` on a byte string. -/
def escape (s : List Nat) (mode : encoding) : List Nat :=
  s.flatMap (escapeByte mode)

/-- The function `url.QueryEscape`. -/
def QueryEscape (s : String) : String :=
  asciiString (escape (utf8Bytes s) .encodeQueryComponent)

/-- The function `url.PathEscape`. -/
def PathEscape (s : String) : String :=
  asciiString (escape (utf8Bytes s) .encodePathSegment)

/-- The function `ishex` of `net/url`. -/
def ishex (c : Nat) : Bool :=
  (48 ≤ c ∧ c ≤ 57) ∨ (97 ≤ c ∧ c ≤ 102) ∨ (65 ≤ c ∧ c ≤ 70)

/-- The function `unhex` of `net/url`. -/
def unhex (c : Nat) : Nat :=
  if 48 ≤ c ∧ c ≤ 57 then c - 48
  else if 97 ≤ c ∧ c ≤ 102 then c - 97 + 10
  else if 65 ≤ c ∧ c ≤ 70 then c - 65 + 10
  else 0

/-- The function `unescape` of `net/url` on a byte string: the error carries the offending
escape (the Go `EscapeError`, at most three bytes from the first invalid `%`). -/
def unescape (mode : encoding) : List Nat → Except (List Nat) (List Nat)
  | [] => .ok []
  | c :: rest =>
    if c = 37 then
      match rest with
      | d :: e :: rest' =>
        if ishex d && ishex e then
          (unescape mode rest').map (fun t => (unhex d * 16 + unhex e) :: t)
        else .error [c, d, e]
      | _ => .error (c :: rest)
    else
      (unescape mode rest).map
        (fun t => (if c = 43 ∧ mode = .encodeQueryComponent then 32 else c) :: t)

/-- The function `url.QueryUnescape`; the result is a byte string. -/
def QueryUnescape (s : String) : Except (List Nat) (List Nat) :=
  unescape .encodeQueryComponent (utf8Bytes s)

/-- The pieces of a raw query separated by `&` (byte 38). -/
def splitAmpersand : List Nat → List (List Nat)
  | [] => [[]]
  | c :: rest =>
    if c = 38 then [] :: splitAmpersand rest
    else
      match splitAmpersand rest with
      | [] => [[c]]
      | piece :: pieces => (c :: piece) :: pieces

/-- The function `url.ParseQuery` on a byte string, as the list of `(key, value)` pairs in
order of appearance; pieces that are empty, contain `;` (byte 59) or fail to unescape are
skipped, as the library does after recording the error. -/
def ParseQuery (query : List Nat) : List (List Nat × List Nat) :=
  (splitAmpersand query).filterMap (fun piece =>
    if piece = [] ∨ 59 ∈ piece then none
    else
      let key := piece.takeWhile (fun b => b != 61)
      let value := (piece.dropWhile (fun b => b != 61)).tail
      match unescape .encodeQueryComponent key, unescape .encodeQueryComponent value with
      | .ok k, .ok v => some (k, v)
      | _, _ => none)

/-- The raw query of a request URL as `url.Parse` finds it, and as the upstream receives
it: the fragment, from the first `#` (byte 35), is cut off, and the raw query is what
follows the first `?` (byte 63) of the remainder. -/
def requestRawQuery (url : List Nat) : List Nat :=
  ((url.takeWhile (fun b => b != 35)).dropWhile (fun b => b != 63)).tail

/-! ## Query values (`url.Values`) -/

/-- The Go type `url.Values`, a map from keys to value lists, as an association list in
which the first entry of a key is the one in the map. -/
abbrev Values := List (String × List String)

/-- Map lookup `v[key]`. -/
def Values.lookup (v : Values) (key : String) : Option (List String) :=
  (v.find? (fun kv => kv.1 == key)).map Prod.snd

/-- The method `Values.Set`: replaces any existing values of `key`. -/
def Values.Set (v : Values) (key value : String) : Values :=
  (key, [value]) :: v.filter (fun kv => kv.1 != key)

/-- Go string comparison `a <= b`: lexicographic on bytes. -/
def bytesLE : List Nat → List Nat → Bool
  | [], _ => true
  | _ :: _, [] => false
  | a :: as, b :: bs => decide (a < b) || (a == b && bytesLE as bs)

/-- The method `Values.Encode`: `key=value` pairs, escaped, sorted by key, joined by `&`. -/
def Values.Encode (v : Values) : String :=
  let keys := ((v.map Prod.fst).dedup).insertionSort
    (fun a b => bytesLE (utf8Bytes a) (utf8Bytes b) = true)
  let pairs := keys.flatMap (fun k =>
    ((v.lookup k).getD []).map (fun x => QueryEscape k ++ "=" ++ QueryEscape x))
  "&".intercalate pairs

/-! ## The environment of the client -/

/-- What `httpClient.Do` delivers: the status code, and the outcome of `io.ReadAll` on the
body (the bytes read, and the read error if any). -/
structure HttpResponse where
  StatusCode : Int
  Body : String
  ReadErr : Option GoError
deriving DecidableEq, Repr

/-- The value returned by `url.Parse`, observed through the two methods the client calls on
it: `u.Query()`, and `u.String()` once `u.RawQuery` has been assigned. -/
structure ParsedURL where
  Query : Values
  StringWith : String → String

/-- The behaviour of the libraries and of the upstream server. -/
structure Env where
  /-- The error of `http.NewRequestWithContext(ctx, "GET", url, nil)`, if any. -/
  newRequest : String → Option GoError
  /-- The call `httpClient.Do` on a request for the given URL. -/
  httpDo : String → Except GoError HttpResponse
  /-- The function `url.Parse`. -/
  urlParse : String → Except GoError ParsedURL
  /-- The function `strconv.ParseFloat(s, 64)`. -/
  parseFloat : String → Except GoError Float64
  /-- The function `json.Unmarshal` into a `FunctionTitlesResponse`. -/
  unmarshalFunctionTitles : String → Except GoError FunctionTitlesResponse
  /-- The function `json.Unmarshal` into a `[]string`. -/
  unmarshalCities : String → Except GoError (List String)
  /-- The function `json.Unmarshal` into the raw geolocation struct. -/
  unmarshalGeoLocation : String → Except GoError RawGeoLocation
  /-- The function `json.Unmarshal` into a `JobsResponse`. -/
  unmarshalJobs : String → Except GoError JobsResponse
  /-- The function `json.Marshal` on a `*FunctionTitlesResponse`. -/
  marshalFunctionTitles : FunctionTitlesResponse → Except GoError String
  /-- The function `json.Marshal` on a `[]string`. -/
  marshalCities : List String → Except GoError String
  /-- The function `json.Marshal` on a `*GeoLocationResponse`. -/
  marshalGeoLocation : GeoLocationResponse → Except GoError String
  /-- The function `json.Marshal` on a `*JobsResponse`. -/
  marshalJobs : JobsResponse → Except GoError String

/-- The outcome of a call: the returned value or error, and the URLs on which
`httpClient.Do` was invoked, in order. -/
structure Call (ε α : Type) where
  result : Except ε α
  requests : List String

/-- The Go struct `Client`; its `httpClient` is the field `httpDo` of the environment. -/
structure Client where
  baseURL : String
deriving DecidableEq, Repr

/-! ## The upstream client (`internal/api/client.go`) -/

/-- The method `Client.makeRequest`: `unmarshal` is `json.Unmarshal` into the target. -/
def makeRequest {α : Type} (env : Env) (url : String)
    (unmarshal : String → Except GoError α) : Call APIError α :=
  match env.newRequest url with
  | some err => ⟨.error (NewAPIError 0 "failed to create request" url (some err)), []⟩
  | none =>
    match env.httpDo url with
    | .error err => ⟨.error (NewAPIError 0 "API request failed" url (some err)), [url]⟩
    | .ok resp =>
      if resp.StatusCode ≠ 200 then
        ⟨.error (NewAPIError resp.StatusCode resp.Body url none), [url]⟩
      else
        match resp.ReadErr with
        | some err =>
          ⟨.error (NewAPIError resp.StatusCode "failed to read response" url (some err)), [url]⟩
        | none =>
          match unmarshal resp.Body with
          | .error err =>
            ⟨.error (NewAPIError resp.StatusCode "failed to parse JSON" url (some err)), [url]⟩
          | .ok v => ⟨.ok v, [url]⟩

/-- The conversion of the `*APIError` returned by `makeRequest` to the interface `error`. -/
def Call.asClient {α : Type} (c : Call APIError α) : Call ClientError α :=
  match c.result with
  | .error e => ⟨.error (.api e), c.requests⟩
  | .ok v => ⟨.ok v, c.requests⟩

/-- The method `Client.SearchFunctionTitles`. -/
def Client.SearchFunctionTitles (env : Env) (c : Client) (query : String) :
    Call ClientError FunctionTitlesResponse :=
  if query = "" then
    ⟨.error (.validation (NewValidationError "query" (.str query) "query cannot be empty")), []⟩
  else
    let apiURL := c.baseURL
      ++ "/api/jobs/v3/sites/nationalevacaturebank.nl/function-titles?query="
      ++ QueryEscape query
    (makeRequest env apiURL env.unmarshalFunctionTitles).asClient

/-- The method `Client.SearchCities`. -/
def Client.SearchCities (env : Env) (c : Client) (startsWith : String) :
    Call ClientError (List String) :=
  if startsWith = "" then
    ⟨.error (.validation
      (NewValidationError "startsWith" (.str startsWith) "startsWith cannot be empty")), []⟩
  else
    let apiURL := c.baseURL ++ "/api/v1/cities/nl?startsWith=" ++ QueryEscape startsWith
    (makeRequest env apiURL env.unmarshalCities).asClient

/-- The method `Client.GetGeoLocation`. -/
def Client.GetGeoLocation (env : Env) (c : Client) (cityName : String) :
    Call ClientError GeoLocationResponse :=
  if cityName = "" then
    ⟨.error (.validation
      (NewValidationError "cityName" (.str cityName) "cityName cannot be empty")), []⟩
  else
    let apiURL := c.baseURL ++ "/api/v1/geolocations/nl/" ++ PathEscape cityName
    let call := makeRequest env apiURL env.unmarshalGeoLocation
    match call.result with
    | .error e => ⟨.error (.api e), call.requests⟩
    | .ok rawResponse =>
      match env.parseFloat rawResponse.Latitude with
      | .error err =>
        ⟨.error (.api (NewAPIError 0 "invalid latitude format" apiURL (some err))), call.requests⟩
      | .ok lat =>
        match env.parseFloat rawResponse.Longitude with
        | .error err =>
          ⟨.error (.api (NewAPIError 0 "invalid longitude format" apiURL (some err))),
            call.requests⟩
        | .ok lng =>
          ⟨.ok { CityCenter := { Latitude := lat, Longitude := lng },
                 CityName := rawResponse.CityName }, call.requests⟩

/-- The slice `filters` built by `Client.FindJobs`. -/
def findJobsFilters (params : JobSearchParams) : List String :=
  let filters : List String := []
  let filters :=
    if params.Latitude.neZero && params.Longitude.neZero then
      ((filters ++ ["latitude:" ++ params.Latitude.formatFixed 6])
        ++ ["longitude:" ++ params.Longitude.formatFixed 6])
        ++ ["distance:" ++ params.Distance.formatFixed 0]
    else filters
  let filters := if params.City ≠ "" then filters ++ ["city:" ++ params.City] else filters
  let filters :=
    if params.JobTitle ≠ "" then filters ++ ["dcoTitle:" ++ params.JobTitle] else filters
  filters

/-- The query values `q` built by `Client.FindJobs`, starting from `u.Query()`. -/
def findJobsQuery (q0 : Values) (params : JobSearchParams) : Values :=
  let q := q0.Set "page" (toString params.Page)
  let q := q.Set "limit" (toString params.Limit)
  let q := q.Set "sort" params.SortKey
  let filters := findJobsFilters params
  if filters.length > 0 then q.Set "filters" (" ".intercalate filters) else q

/-- The method `Client.FindJobs`. -/
def Client.FindJobs (env : Env) (c : Client) (params : JobSearchParams) :
    Call ClientError JobsResponse :=
  if params.Page < 1 then
    ⟨.error (.validation (NewValidationError "page" (.int params.Page) "page must be >= 1")), []⟩
  else if params.Limit < 1 then
    ⟨.error (.validation
      (NewValidationError "limit" (.int params.Limit) "limit must be >= 1")), []⟩
  else if params.Limit > 100 then
    ⟨.error (.validation
      (NewValidationError "limit" (.int params.Limit) "limit must be <= 100")), []⟩
  else
    let baseURL := c.baseURL ++ "/api/jobs/v3/sites/nationalevacaturebank.nl/jobs"
    match env.urlParse baseURL with
    | .error err => ⟨.error (.api (NewAPIError 0 "failed to parse URL" baseURL (some err))), []⟩
    | .ok u =>
      let q := findJobsQuery u.Query params
      (makeRequest env (u.StringWith q.Encode) env.unmarshalJobs).asClient

/-! ## The tool handlers (`internal/handlers/mcp_handlers.go`) -/

/-- The Go struct `mcp.CallToolRequest`, observed through its accessors: `RequireString`,
and for `GetString`, `GetInt` and `GetFloat` the value the library extracts for a key
(`none` when the argument is absent or cannot be converted). -/
structure CallToolRequest where
  RequireString : String → Except GoError String
  stringArg : String → Option String
  intArg : String → Option Int
  floatArg : String → Option Float64

/-- The accessor `GetString(key, defaultValue)`. -/
def CallToolRequest.GetString (r : CallToolRequest) (key defaultValue : String) : String :=
  (r.stringArg key).getD defaultValue

/-- The accessor `GetInt(key, defaultValue)`. -/
def CallToolRequest.GetInt (r : CallToolRequest) (key : String) (defaultValue : Int) : Int :=
  (r.intArg key).getD defaultValue

/-- The accessor `GetFloat(key, defaultValue)`. -/
def CallToolRequest.GetFloat (r : CallToolRequest) (key : String) (defaultValue : Float64) :
    Float64 :=
  (r.floatArg key).getD defaultValue

/-- The Go struct `mcp.CallToolResult` with a single text content. -/
structure CallToolResult where
  Text : String
  IsError : Bool
deriving DecidableEq, Repr

/-- The constructor `mcp.NewToolResultError`. -/
def NewToolResultError (text : String) : CallToolResult :=
  { Text := text, IsError := true }

/-- The constructor `mcp.NewToolResultText`. -/
def NewToolResultText (text : String) : CallToolResult :=
  { Text := text, IsError := false }

/-- What a handler returns: the tool result, the Go `error` (`none` is `nil`), and the
upstream requests made on the way. -/
structure HandlerReturn where
  result : CallToolResult
  err : Option GoError
  requests : List String
deriving DecidableEq, Repr

/-- The Go struct `Handlers`. -/
structure Handlers where
  apiClient : Client
deriving DecidableEq, Repr

/-- The method `Handlers.SearchFunctionTitles`. -/
def Handlers.SearchFunctionTitles (env : Env) (h : Handlers) (request : CallToolRequest) :
    HandlerReturn :=
  match request.RequireString "query" with
  | .error err => ⟨NewToolResultError ("invalid query parameter: " ++ err.text), none, []⟩
  | .ok query =>
    let call := h.apiClient.SearchFunctionTitles env query
    match call.result with
    | .error err => ⟨NewToolResultError ("search failed: " ++ err.Error), none, call.requests⟩
    | .ok response =>
      match env.marshalFunctionTitles response with
      | .error err =>
        ⟨NewToolResultError ("failed to serialize response: " ++ err.text), none, call.requests⟩
      | .ok resultJSON => ⟨NewToolResultText resultJSON, none, call.requests⟩

/-- The method `Handlers.SearchCity`. -/
def Handlers.SearchCity (env : Env) (h : Handlers) (request : CallToolRequest) :
    HandlerReturn :=
  match request.RequireString "startsWith" with
  | .error err => ⟨NewToolResultError ("invalid startsWith parameter: " ++ err.text), none, []⟩
  | .ok startsWith =>
    let call := h.apiClient.SearchCities env startsWith
    match call.result with
    | .error err =>
      ⟨NewToolResultError ("city search failed: " ++ err.Error), none, call.requests⟩
    | .ok cities =>
      match env.marshalCities cities with
      | .error err =>
        ⟨NewToolResultError ("failed to serialize response: " ++ err.text), none, call.requests⟩
      | .ok resultJSON => ⟨NewToolResultText resultJSON, none, call.requests⟩

/-- The method `Handlers.GeoLocation`. -/
def Handlers.GeoLocation (env : Env) (h : Handlers) (request : CallToolRequest) :
    HandlerReturn :=
  match request.RequireString "cityName" with
  | .error err => ⟨NewToolResultError ("invalid cityName parameter: " ++ err.text), none, []⟩
  | .ok cityName =>
    let call := h.apiClient.GetGeoLocation env cityName
    match call.result with
    | .error err =>
      ⟨NewToolResultError ("geolocation lookup failed: " ++ err.Error), none, call.requests⟩
    | .ok response =>
      match env.marshalGeoLocation response with
      | .error err =>
        ⟨NewToolResultError ("failed to serialize response: " ++ err.text), none, call.requests⟩
      | .ok resultJSON => ⟨NewToolResultText resultJSON, none, call.requests⟩

/-- The `JobSearchParams` that `Handlers.FindJobs` builds from the request and passes to
the client. -/
def Handlers.findJobsParams (request : CallToolRequest) : JobSearchParams :=
  let page := request.GetInt "page" 1
  let limit := request.GetInt "limit" 10
  let sort := request.GetString "sort" "relevance"
  let page := if page < 1 then 1 else page
  let limit := if limit < 1 then 10 else limit
  let limit := if limit > 100 then 100 else limit
  { Page := page
    Limit := limit
    SortKey := sort
    City := request.GetString "city" ""
    JobTitle := request.GetString "jobTitle" ""
    Latitude := request.GetFloat "latitude" (.finite false 0 0)
    Longitude := request.GetFloat "longitude" (.finite false 0 0)
    Distance := request.GetFloat "distance" (.finite false 5 3) }

/-- The method `Handlers.FindJobs`. -/
def Handlers.FindJobs (env : Env) (h : Handlers) (request : CallToolRequest) :
    HandlerReturn :=
  let params := Handlers.findJobsParams request
  let call := h.apiClient.FindJobs env params
  match call.result with
  | .error err => ⟨NewToolResultError ("job search failed: " ++ err.Error), none, call.requests⟩
  | .ok response =>
    match env.marshalJobs response with
    | .error err =>
      ⟨NewToolResultError ("failed to serialize response: " ++ err.text), none, call.requests⟩
    | .ok resultJSON => ⟨NewToolResultText resultJSON, none, call.requests⟩

/-! ## Stub environments

Concrete environments on which the operations can be evaluated. -/

deriving instance DecidableEq for Except

/-- A stub of `url.Parse`: a URL starting with `:` is rejected ("missing protocol
scheme"); a URL of the form `http://stub?filters=x...` has the query value `filters`;
any other URL is accepted with no query values. -/
def stubURLParse (s : String) : Except GoError ParsedURL :=
  if s.data.head? = some ':' then
    .error ⟨"parse \"" ++ s ++ "\": missing protocol scheme"⟩
  else if s = "http://stub?filters=x/api/jobs/v3/sites/nationalevacaturebank.nl/jobs" then
    .ok { Query := [("filters", ["x/api/jobs/v3/sites/nationalevacaturebank.nl/jobs"])]
          StringWith := fun raw => "http://stub?" ++ raw }
  else
    .ok { Query := [], StringWith := fun raw => if raw = "" then s else s ++ "?" ++ raw }

/-- A stub of `strconv.ParseFloat` that knows the two coordinates of Amsterdam used in the
examples and rejects the string `abc`, as the library does. -/
def stubParseFloat (s : String) : Except GoError Float64 :=
  if s = "52.3676" then .ok (.finite false 7370084495196475 (-47))
  else if s = "4.9041" then .ok (.finite false 172547679160841 (-45))
  else .error ⟨"strconv.ParseFloat: parsing \"" ++ s ++ "\": invalid syntax"⟩

/-- A stub upstream answering every request with the given status and body; the JSON
decoders accept every body and return fixed values. -/
def stubEnv (status : Int) (body : String) : Env where
  newRequest := fun _ => none
  httpDo := fun _ => .ok { StatusCode := status, Body := body, ReadErr := none }
  urlParse := stubURLParse
  parseFloat := stubParseFloat
  unmarshalFunctionTitles := fun _ => .ok { Suggestions := ["developer"] }
  unmarshalCities := fun _ => .ok ["Amsterdam"]
  unmarshalGeoLocation := fun _ =>
    .ok { Latitude := "52.3676", Longitude := "4.9041", CityName := "Amsterdam" }
  unmarshalJobs := fun _ =>
    .ok { Page := 1, Limit := 10, Pages := 0, Total := 0,
          Links := { Self := "", First := "", Last := "", Next := "" }, Jobs := [] }
  marshalFunctionTitles := fun _ => .ok "ok"
  marshalCities := fun _ => .ok "ok"
  marshalGeoLocation := fun _ => .ok "ok"
  marshalJobs := fun _ => .ok "ok"

/-- A stub environment whose transport fails on every request. -/
def downEnv : Env :=
  { stubEnv 200 "" with httpDo := fun _ => .error ⟨"dial tcp: connection refused"⟩ }

/-- A stub client. -/
def stubClient : Client := { baseURL := "http://stub" }

/-- A stub upstream whose geolocation answer carries the non-numeric latitude `abc`. -/
def badLatitudeEnv : Env :=
  { stubEnv 200 "" with
    unmarshalGeoLocation := fun _ =>
      .ok { Latitude := "abc", Longitude := "4.9041", CityName := "Amsterdam" } }

/-- Search parameters at the boundary `Limit = 100`, with no filter. -/
def boundaryParams : JobSearchParams :=
  { Page := 1, Limit := 100, SortKey := "relevance", City := "", JobTitle := "",
    Latitude := .finite false 0 0, Longitude := .finite false 0 0,
    Distance := .finite false 5 3 }

/-- The `float64` nearest to `52.37`. -/
def lat5237 : Float64 := .finite false 7370422265168527 (-47)

/-- The `float64` nearest to `4.89`. -/
def lng489 : Float64 := .finite false 5505650544460431 (-50)

/-- A tool request carrying the given `page` and `limit` arguments and nothing else. -/
def pageLimitRequest (page limit : Option Int) : CallToolRequest where
  RequireString := fun key => .error ⟨"required argument \"" ++ key ++ "\" not found"⟩
  stringArg := fun _ => none
  intArg := fun key => if key = "page" then page else if key = "limit" then limit else none
  floatArg := fun _ => none

/-- A tool request whose string arguments all hold `value`. -/
def stringRequest (value : String) : CallToolRequest where
  RequireString := fun _ => .ok value
  stringArg := fun _ => some value
  intArg := fun _ => none
  floatArg := fun _ => none

/-- Search parameters for a radius of 10 around latitude 52.37, longitude 4.89, with empty
city and job title. -/
def geoParams : JobSearchParams :=
  { Page := 1, Limit := 10, SortKey := "relevance", City := "", JobTitle := "",
    Latitude := lat5237, Longitude := lng489, Distance := .finite false 5 1 }

/-- Search parameters with latitude 0 and longitude 4.89. -/
def zeroLatitudeParams : JobSearchParams :=
  { Page := 1, Limit := 10, SortKey := "relevance", City := "", JobTitle := "",
    Latitude := .finite false 0 0, Longitude := lng489, Distance := .finite false 5 1 }

/-- The list of filter clauses as the specification words it: the three geolocation
clauses, then the city clause, then the job title clause. -/
def specFilterList (p : JobSearchParams) : List String :=
  (if p.Latitude.neZero = true ∧ p.Longitude.neZero = true then
      ["latitude:" ++ p.Latitude.formatFixed 6, "longitude:" ++ p.Longitude.formatFixed 6,
       "distance:" ++ p.Distance.formatFixed 0]
    else [])
  ++ (if p.City ≠ "" then ["city:" ++ p.City] else [])
  ++ (if p.JobTitle ≠ "" then ["dcoTitle:" ++ p.JobTitle] else [])

/-! ## Shared lemmas on `makeRequest` -/

theorem asClient_ne_validation {α : Type} (c : Call APIError α) (e : ValidationError) :
    c.asClient.result ≠ .error (.validation e) := by
  unfold Call.asClient
  split <;> simp

theorem asClient_requests {α : Type} (c : Call APIError α) :
    c.asClient.requests = c.requests := by
  unfold Call.asClient
  split <;> rfl

theorem makeRequest_requests {α : Type} (env : Env) (url : String)
    (unmarshal : String → Except GoError α) (h : env.newRequest url = none) :
    (makeRequest env url unmarshal).requests = [url] := by
  unfold makeRequest
  rw [h]
  dsimp only
  split
  · rfl
  · split
    · rfl
    · split
      · rfl
      · split <;> rfl

theorem findJobs_of_valid (env : Env) (c : Client) (p : JobSearchParams)
    (h1 : 1 ≤ p.Page) (h2 : 1 ≤ p.Limit) (h3 : p.Limit ≤ 100) :
    c.FindJobs env p =
      match env.urlParse (c.baseURL ++ "/api/jobs/v3/sites/nationalevacaturebank.nl/jobs") with
      | .error err =>
        ⟨.error (.api (NewAPIError 0 "failed to parse URL"
          (c.baseURL ++ "/api/jobs/v3/sites/nationalevacaturebank.nl/jobs") (some err))), []⟩
      | .ok u =>
        (makeRequest env (u.StringWith (findJobsQuery u.Query p).Encode)
          env.unmarshalJobs).asClient := by
  unfold Client.FindJobs
  rw [if_neg (by omega), if_neg (by omega), if_neg (by omega)]

theorem findJobs_valid_ne_validation (env : Env) (c : Client) (p : JobSearchParams)
    (h1 : 1 ≤ p.Page) (h2 : 1 ≤ p.Limit) (h3 : p.Limit ≤ 100) (e : ValidationError) :
    (c.FindJobs env p).result ≠ .error (.validation e) := by
  rw [findJobs_of_valid env c p h1 h2 h3]
  split
  · simp
  · exact asClient_ne_validation _ e

theorem findJobs_valid_requests (env : Env) (c : Client) (p : JobSearchParams)
    (h1 : 1 ≤ p.Page) (h2 : 1 ≤ p.Limit) (h3 : p.Limit ≤ 100) (u : ParsedURL)
    (hu : env.urlParse (c.baseURL ++ "/api/jobs/v3/sites/nationalevacaturebank.nl/jobs")
      = .ok u)
    (hreq : env.newRequest (u.StringWith (findJobsQuery u.Query p).Encode) = none) :
    (c.FindJobs env p).requests = [u.StringWith (findJobsQuery u.Query p).Encode] := by
  rw [findJobs_of_valid env c p h1 h2 h3, hu]
  dsimp only
  rw [asClient_requests, makeRequest_requests env _ _ hreq]

/-! ## Validation in `Client.FindJobs` -/

/-- C1 (as stated, refuted): with the base URL `:` the parameters `Page = 1`, `Limit = 100`
pass validation, yet `url.Parse` rejects the request URL and `Client.FindJobs` returns an
`APIError` without issuing any upstream request. -/
theorem findJobs_valid_without_request :
    1 ≤ boundaryParams.Page ∧ 1 ≤ boundaryParams.Limit ∧ boundaryParams.Limit ≤ 100 ∧
    (Client.FindJobs (stubEnv 200 "") { baseURL := ":" } boundaryParams).requests = [] ∧
    (Client.FindJobs (stubEnv 200 "") { baseURL := ":" } boundaryParams).result =
      .error (.api
        { StatusCode := 0, Message := "failed to parse URL"
          Endpoint := ":/api/jobs/v3/sites/nationalevacaturebank.nl/jobs"
          Cause := some ⟨"parse \":/api/jobs/v3/sites/nationalevacaturebank.nl/jobs\": "
            ++ "missing protocol scheme"⟩ }) := by
  decide

/-- C1 (amended): `Client.FindJobs` returns the `page` validation error exactly when
`Page < 1`, otherwise the `limit must be >= 1` error exactly when `Limit < 1`, otherwise
the `limit must be <= 100` error exactly when `Limit > 100`; for `Page >= 1` and
`1 <= Limit <= 100` (the boundary `Limit = 100` included) no validation error is returned,
and the upstream request is issued whenever `url.Parse` accepts the request URL and the
HTTP request can be created; when `url.Parse` rejects the URL, or the HTTP request cannot
be created, an `APIError` with status 0 wrapping that error is returned and no request is
made. -/
theorem findJobs_validation (env : Env) (c : Client) (p : JobSearchParams) :
    ((c.FindJobs env p).result
        = .error (.validation
            { Parameter := "page", Value := .int p.Page, Message := "page must be >= 1" })
      ↔ p.Page < 1) ∧
    ((c.FindJobs env p).result
        = .error (.validation
            { Parameter := "limit", Value := .int p.Limit, Message := "limit must be >= 1" })
      ↔ 1 ≤ p.Page ∧ p.Limit < 1) ∧
    ((c.FindJobs env p).result
        = .error (.validation
            { Parameter := "limit", Value := .int p.Limit, Message := "limit must be <= 100" })
      ↔ 1 ≤ p.Page ∧ 1 ≤ p.Limit ∧ 100 < p.Limit) ∧
    (1 ≤ p.Page → 1 ≤ p.Limit → p.Limit ≤ 100 →
      (∀ e : ValidationError, (c.FindJobs env p).result ≠ .error (.validation e)) ∧
      (∀ u : ParsedURL,
        env.urlParse (c.baseURL ++ "/api/jobs/v3/sites/nationalevacaturebank.nl/jobs")
          = .ok u →
        env.newRequest (u.StringWith (findJobsQuery u.Query p).Encode) = none →
        (c.FindJobs env p).requests = [u.StringWith (findJobsQuery u.Query p).Encode]) ∧
      (∀ err : GoError,
        env.urlParse (c.baseURL ++ "/api/jobs/v3/sites/nationalevacaturebank.nl/jobs")
          = .error err →
        c.FindJobs env p =
          ⟨.error (.api
            { StatusCode := 0, Message := "failed to parse URL"
              Endpoint := c.baseURL ++ "/api/jobs/v3/sites/nationalevacaturebank.nl/jobs"
              Cause := some err }), []⟩) ∧
      (∀ (u : ParsedURL) (err : GoError),
        env.urlParse (c.baseURL ++ "/api/jobs/v3/sites/nationalevacaturebank.nl/jobs")
          = .ok u →
        env.newRequest (u.StringWith (findJobsQuery u.Query p).Encode) = some err →
        c.FindJobs env p =
          ⟨.error (.api
            { StatusCode := 0, Message := "failed to create request"
              Endpoint := u.StringWith (findJobsQuery u.Query p).Encode
              Cause := some err }), []⟩)) := by
  refine ⟨?_, ?_, ?_, ?_⟩
  · constructor
    · intro h
      by_contra hp
      by_cases h2 : p.Limit < 1
      · simp [Client.FindJobs, hp, h2, NewValidationError] at h
      · by_cases h3 : p.Limit > 100
        · simp [Client.FindJobs, hp, h2, h3, NewValidationError] at h
        · exact findJobs_valid_ne_validation env c p (by omega) (by omega) (by omega) _ h
    · intro hp
      simp [Client.FindJobs, hp, NewValidationError]
  · constructor
    · intro h
      by_cases hp : p.Page < 1
      · simp [Client.FindJobs, hp, NewValidationError] at h
      · by_cases h2 : p.Limit < 1
        · exact ⟨by omega, h2⟩
        · by_cases h3 : p.Limit > 100
          · simp [Client.FindJobs, hp, h2, h3, NewValidationError] at h
          · exact absurd h
              (findJobs_valid_ne_validation env c p (by omega) (by omega) (by omega) _)
    · rintro ⟨hp, h2⟩
      have hp' : ¬ p.Page < 1 := by omega
      simp [Client.FindJobs, hp', h2, NewValidationError]
  · constructor
    · intro h
      by_cases hp : p.Page < 1
      · simp [Client.FindJobs, hp, NewValidationError] at h
      · by_cases h2 : p.Limit < 1
        · simp [Client.FindJobs, hp, h2, NewValidationError] at h
        · by_cases h3 : p.Limit > 100
          · exact ⟨by omega, by omega, h3⟩
          · exact absurd h
              (findJobs_valid_ne_validation env c p (by omega) (by omega) (by omega) _)
    · rintro ⟨hp, h2, h3⟩
      have hp' : ¬ p.Page < 1 := by omega
      have h2' : ¬ p.Limit < 1 := by omega
      simp [Client.FindJobs, hp', h2', h3, NewValidationError]
  · intro h1 h2 h3
    refine ⟨findJobs_valid_ne_validation env c p h1 h2 h3,
      fun u hu hreq => findJobs_valid_requests env c p h1 h2 h3 u hu hreq, ?_, ?_⟩
    · intro err herr
      rw [findJobs_of_valid env c p h1 h2 h3, herr]
      rfl
    · intro u err hu hreq
      rw [findJobs_of_valid env c p h1 h2 h3, hu]
      dsimp only
      unfold makeRequest
      rw [hreq]
      rfl

/-- C1 (amended), evaluated at the boundary `Limit = 100` on the stub upstream: no
validation error, and the request is issued. -/
theorem findJobs_validation_witness :
    (Client.FindJobs (stubEnv 200 "") stubClient boundaryParams).result
        ≠ .error (.validation
            { Parameter := "limit", Value := .int 100, Message := "limit must be <= 100" }) ∧
    (Client.FindJobs (stubEnv 200 "") stubClient boundaryParams).requests =
      ["http://stub/api/jobs/v3/sites/nationalevacaturebank.nl/jobs"
        ++ "?limit=100&page=1&sort=relevance"] :=
  ⟨((findJobs_validation (stubEnv 200 "") stubClient boundaryParams).2.2.2
      (by decide) (by decide) (by decide)).1 _,
   ((findJobs_validation (stubEnv 200 "") stubClient boundaryParams).2.2.2
      (by decide) (by decide) (by decide)).2.1
      { Query := []
        StringWith := fun raw =>
          if raw = "" then "http://stub/api/jobs/v3/sites/nationalevacaturebank.nl/jobs"
          else "http://stub/api/jobs/v3/sites/nationalevacaturebank.nl/jobs" ++ "?" ++ raw }
      rfl rfl⟩

/-! ## Empty inputs -/

/-- C3: on the empty string `SearchFunctionTitles`, `SearchCities` and `GetGeoLocation`
return the validation error naming `query`, `startsWith` and `cityName` respectively,
whatever the environment does and without any request; on a non-empty string none of them
returns a validation error. -/
theorem empty_input_validation (env : Env) (c : Client) :
    c.SearchFunctionTitles env "" =
      ⟨.error (.validation
        { Parameter := "query", Value := .str "", Message := "query cannot be empty" }), []⟩ ∧
    c.SearchCities env "" =
      ⟨.error (.validation
        { Parameter := "startsWith", Value := .str ""
          Message := "startsWith cannot be empty" }), []⟩ ∧
    c.GetGeoLocation env "" =
      ⟨.error (.validation
        { Parameter := "cityName", Value := .str ""
          Message := "cityName cannot be empty" }), []⟩ ∧
    ∀ s : String, s ≠ "" → ∀ e : ValidationError,
      (c.SearchFunctionTitles env s).result ≠ .error (.validation e) ∧
      (c.SearchCities env s).result ≠ .error (.validation e) ∧
      (c.GetGeoLocation env s).result ≠ .error (.validation e) := by
  refine ⟨rfl, rfl, rfl, ?_⟩
  intro s hs e
  refine ⟨?_, ?_, ?_⟩
  · unfold Client.SearchFunctionTitles
    rw [if_neg hs]
    exact asClient_ne_validation _ e
  · unfold Client.SearchCities
    rw [if_neg hs]
    exact asClient_ne_validation _ e
  · unfold Client.GetGeoLocation
    rw [if_neg hs]
    dsimp only
    split
    · simp
    · split
      · simp
      · split <;> simp

/-- C3, evaluated on the stub upstream for the query `dev`. -/
theorem empty_input_validation_witness :
    "dev" ≠ "" ∧
    (Client.SearchFunctionTitles (stubEnv 200 "") stubClient "dev").result
      ≠ .error (.validation
          { Parameter := "query", Value := .str "dev", Message := "query cannot be empty" }) :=
  ⟨by decide,
   ((empty_input_validation (stubEnv 200 "") stubClient).2.2.2 "dev" (by decide) _).1⟩

/-! ## Status codes and transport failures in `makeRequest` -/

/-- C4 (as stated, refuted): a response with the 2xx status 201 is not treated as
successful; `makeRequest` returns an `APIError` carrying 201 and the raw body. -/
theorem makeRequest_201_is_error :
    (200 : Int) ≤ 201 ∧ (201 : Int) ≤ 299 ∧
    (makeRequest (stubEnv 201 "[\"Amsterdam\"]") "http://stub/api/v1/cities/nl?startsWith=A"
        (stubEnv 201 "[\"Amsterdam\"]").unmarshalCities).result =
      .error { StatusCode := 201, Message := "[\"Amsterdam\"]"
               Endpoint := "http://stub/api/v1/cities/nl?startsWith=A", Cause := none } := by
  decide

/-- C4 (amended): for every response obtained from the upstream, `makeRequest` fails with
the `APIError` carrying the response status and the raw body as message (and no cause) if
and only if the status is not 200; a 200 response whose body is read without error is
decoded as JSON into the target. -/
theorem makeRequest_status {α : Type} (env : Env) (url : String)
    (unmarshal : String → Except GoError α) (resp : HttpResponse)
    (hreq : env.newRequest url = none) (hdo : env.httpDo url = .ok resp) :
    ((makeRequest env url unmarshal).result
        = .error { StatusCode := resp.StatusCode, Message := resp.Body, Endpoint := url
                   Cause := none } ↔ resp.StatusCode ≠ 200) ∧
    (resp.StatusCode = 200 → resp.ReadErr = none →
      (makeRequest env url unmarshal).result =
        match unmarshal resp.Body with
        | .ok v => .ok v
        | .error err =>
          .error { StatusCode := 200, Message := "failed to parse JSON", Endpoint := url
                   Cause := some err }) := by
  unfold makeRequest
  rw [hreq, hdo]
  dsimp only
  by_cases hs : resp.StatusCode = 200
  · rw [if_neg (by simpa using hs)]
    constructor
    · constructor
      · intro h
        exfalso
        cases hr : resp.ReadErr with
        | some e => rw [hr] at h; simp [NewAPIError] at h
        | none =>
          rw [hr] at h
          dsimp only at h
          cases hu : unmarshal resp.Body with
          | error e => rw [hu] at h; simp [NewAPIError] at h
          | ok v => rw [hu] at h; simp at h
      · intro h; exact absurd hs h
    · intro _ hr
      rw [hr]
      dsimp only
      cases hu : unmarshal resp.Body with
      | error e => simp [NewAPIError, hs]
      | ok v => rfl
  · rw [if_pos hs]
    constructor
    · constructor
      · intro _; exact hs
      · intro _; rfl
    · intro h; exact absurd h hs

/-- C4 (amended), evaluated on a 404 response with body `not found`. -/
theorem makeRequest_status_witness :
    (makeRequest (stubEnv 404 "not found") "http://stub/x"
        (stubEnv 404 "not found").unmarshalCities).result
      = .error { StatusCode := 404, Message := "not found", Endpoint := "http://stub/x"
                 Cause := none } :=
  (makeRequest_status (stubEnv 404 "not found") "http://stub/x"
      (stubEnv 404 "not found").unmarshalCities
      { StatusCode := 404, Body := "not found", ReadErr := none } rfl rfl).1.2 (by decide)

/-- C10 (as stated, refuted): when the transport fails the message of the `APIError` is
`API request failed`, not `request failed`. -/
theorem makeRequest_transport_message :
    (makeRequest downEnv "http://stub/x" downEnv.unmarshalCities).result
      = .error { StatusCode := 0, Message := "API request failed", Endpoint := "http://stub/x"
                 Cause := some ⟨"dial tcp: connection refused"⟩ } ∧
    (makeRequest downEnv "http://stub/x" downEnv.unmarshalCities).result
      ≠ .error { StatusCode := 0, Message := "request failed", Endpoint := "http://stub/x"
                 Cause := some ⟨"dial tcp: connection refused"⟩ } := by
  decide

/-- C10 (amended): when `httpClient.Do` fails, `makeRequest` returns the `APIError` with
status 0, message `API request failed`, the requested URL as endpoint and the transport
error as cause, whatever the decoder of the target is: nothing is decoded. -/
theorem makeRequest_transport_failure {α : Type} (env : Env) (url : String)
    (unmarshal : String → Except GoError α) (err : GoError)
    (hreq : env.newRequest url = none) (hdo : env.httpDo url = .error err) :
    makeRequest env url unmarshal =
      ⟨.error { StatusCode := 0, Message := "API request failed", Endpoint := url
                Cause := some err }, [url]⟩ := by
  unfold makeRequest
  rw [hreq, hdo]
  rfl

/-- C10 (amended), evaluated on the stub whose transport is down. -/
theorem makeRequest_transport_failure_witness :
    makeRequest downEnv "http://stub/x" downEnv.unmarshalJobs =
      ⟨.error { StatusCode := 0, Message := "API request failed", Endpoint := "http://stub/x"
                Cause := some ⟨"dial tcp: connection refused"⟩ }, ["http://stub/x"]⟩ :=
  makeRequest_transport_failure downEnv "http://stub/x" downEnv.unmarshalJobs
    ⟨"dial tcp: connection refused"⟩ rfl rfl

/-! ## Clamping in `Handlers.FindJobs` -/

/-- C5 (as stated, refuted): a `limit` of 0 reaches the client as 10, whereas
`min(max(0, 1), 100)` is 1. -/
theorem findJobsParams_limit_zero :
    (Handlers.findJobsParams (pageLimitRequest none (some 0))).Limit = 10 ∧
    (Handlers.findJobsParams (pageLimitRequest none (some 0))).Limit
      ≠ min (max (0 : Int) 1) 100 := by
  decide

/-- C5 (amended): the handler passes to the client `Page = max(page, 1)`, and as `Limit`
the default 10 when `limit < 1`, else `min(limit, 100)`; absent `page` and `limit` become 1
and 10; these are the parameters given to `Client.FindJobs`. -/
theorem findJobsParams_clamp (request : CallToolRequest) :
    (∀ page : Int, request.intArg "page" = some page →
      (Handlers.findJobsParams request).Page = max page 1) ∧
    (∀ limit : Int, request.intArg "limit" = some limit →
      (Handlers.findJobsParams request).Limit = if limit < 1 then 10 else min limit 100) ∧
    (request.intArg "page" = none → (Handlers.findJobsParams request).Page = 1) ∧
    (request.intArg "limit" = none → (Handlers.findJobsParams request).Limit = 10) ∧
    ∀ (env : Env) (h : Handlers),
      (Handlers.FindJobs env h request).requests
        = (h.apiClient.FindJobs env (Handlers.findJobsParams request)).requests := by
  refine ⟨?_, ?_, ?_, ?_, ?_⟩
  · intro page hp
    simp only [Handlers.findJobsParams, CallToolRequest.GetInt, hp, Option.getD_some]
    split <;> omega
  · intro limit hl
    simp only [Handlers.findJobsParams, CallToolRequest.GetInt, hl, Option.getD_some]
    split <;> split <;> omega
  · intro hp
    simp [Handlers.findJobsParams, CallToolRequest.GetInt, hp]
  · intro hl
    simp [Handlers.findJobsParams, CallToolRequest.GetInt, hl]
  · intro env h
    unfold Handlers.FindJobs
    dsimp only
    split
    · rfl
    · split <;> rfl

/-- C5 (amended), evaluated at `page = -5`, `limit = 500`. -/
theorem findJobsParams_clamp_witness :
    (Handlers.findJobsParams (pageLimitRequest (some (-5)) (some 500))).Page = max (-5) 1 ∧
    (Handlers.findJobsParams (pageLimitRequest (some (-5)) (some 500))).Limit
      = if (500 : Int) < 1 then 10 else min 500 100 :=
  ⟨(findJobsParams_clamp (pageLimitRequest (some (-5)) (some 500))).1 (-5) rfl,
   (findJobsParams_clamp (pageLimitRequest (some (-5)) (some 500))).2.1 500 rfl⟩

theorem string_append_left_cancel (a b c : String) (h : a ++ b = a ++ c) : b = c := by
  have hd := congrArg String.data h
  rw [String.data_append, String.data_append] at hd
  exact String.ext (List.append_cancel_left hd)

theorem APIError_Error_head (e : APIError) : e.Error.data.head? = some 'A' := by
  unfold APIError.Error
  split <;> simp [String.data_append]

theorem ValidationError_Error_head (e : ValidationError) : e.Error.data.head? = some 'v' := by
  unfold ValidationError.Error
  simp [String.data_append]

theorem findJobsParams_in_range (request : CallToolRequest) :
    1 ≤ (Handlers.findJobsParams request).Page ∧
    1 ≤ (Handlers.findJobsParams request).Limit ∧
    (Handlers.findJobsParams request).Limit ≤ 100 := by
  refine ⟨?_, ?_, ?_⟩
  · simp only [Handlers.findJobsParams]
    split <;> omega
  · simp only [Handlers.findJobsParams]
    split <;> split <;> omega
  · simp only [Handlers.findJobsParams]
    split <;> split <;> omega

/-- C6: for every request, `Handlers.FindJobs` calls `Client.FindJobs` on parameters that
satisfy `Page >= 1` and `1 <= Limit <= 100`; that call returns no validation error; the
tool result is built from that call (its requests, its error text or its response); and
the tool result is never the error text of a validation error. -/
theorem handler_findJobs_no_validation (env : Env) (h : Handlers)
    (request : CallToolRequest) :
    1 ≤ (Handlers.findJobsParams request).Page ∧
    1 ≤ (Handlers.findJobsParams request).Limit ∧
    (Handlers.findJobsParams request).Limit ≤ 100 ∧
    (∀ e : ValidationError,
      (h.apiClient.FindJobs env (Handlers.findJobsParams request)).result
        ≠ .error (.validation e)) ∧
    (Handlers.FindJobs env h request).requests
      = (h.apiClient.FindJobs env (Handlers.findJobsParams request)).requests ∧
    (∀ e : ClientError,
      (h.apiClient.FindJobs env (Handlers.findJobsParams request)).result = .error e →
      (Handlers.FindJobs env h request).result
        = NewToolResultError ("job search failed: " ++ e.Error)) ∧
    (∀ response : JobsResponse,
      (h.apiClient.FindJobs env (Handlers.findJobsParams request)).result = .ok response →
      (Handlers.FindJobs env h request).result =
        match env.marshalJobs response with
        | .error err => NewToolResultError ("failed to serialize response: " ++ err.text)
        | .ok resultJSON => NewToolResultText resultJSON) ∧
    ∀ e : ValidationError,
      (Handlers.FindJobs env h request).result
        ≠ NewToolResultError ("job search failed: " ++ e.Error) := by
  obtain ⟨hp, hl1, hl2⟩ := findJobsParams_in_range request
  have hval := findJobs_valid_ne_validation env h.apiClient _ hp hl1 hl2
  refine ⟨hp, hl1, hl2, hval, ?_, ?_, ?_, ?_⟩
  · unfold Handlers.FindJobs
    dsimp only
    split
    · rfl
    · split <;> rfl
  · intro e he
    unfold Handlers.FindJobs
    dsimp only
    rw [he]
  · intro response hr
    unfold Handlers.FindJobs
    dsimp only
    rw [hr]
    dsimp only
    split <;> rfl
  · intro e
    unfold Handlers.FindJobs
    dsimp only
    cases hr : (h.apiClient.FindJobs env (Handlers.findJobsParams request)).result with
    | error err =>
      dsimp only
      cases err with
      | validation ve => exact absurd hr (hval ve)
      | api a =>
        intro heq
        have ht : "job search failed: " ++ (ClientError.api a).Error
            = "job search failed: " ++ e.Error := congrArg CallToolResult.Text heq
        have hE : a.Error = e.Error := string_append_left_cancel _ _ _ ht
        have h1 := APIError_Error_head a
        rw [hE, ValidationError_Error_head] at h1
        exact absurd h1 (by decide)
    | ok response =>
      dsimp only
      cases hm : env.marshalJobs response with
      | error merr =>
        dsimp only
        intro heq
        have ht : "failed to serialize response: " ++ merr.text
            = "job search failed: " ++ e.Error := congrArg CallToolResult.Text heq
        have hd := congrArg (fun s : String => s.data.head?) ht
        simp [String.data_append] at hd
      | ok js =>
        dsimp only
        intro heq
        have hb := congrArg CallToolResult.IsError heq
        simp [NewToolResultText, NewToolResultError] at hb

/-- C6, evaluated on the stub upstream at `page = -5`, `limit = 500`: the caller receives
the serialized response, not a validation error. -/
theorem handler_findJobs_no_validation_witness :
    (Handlers.FindJobs (stubEnv 200 "") ⟨stubClient⟩
        (pageLimitRequest (some (-5)) (some 500))).result
      = { Text := "ok", IsError := false } :=
  (handler_findJobs_no_validation (stubEnv 200 "") ⟨stubClient⟩
      (pageLimitRequest (some (-5)) (some 500))).2.2.2.2.2.2.1
    { Page := 1, Limit := 10, Pages := 0, Total := 0
      Links := { Self := "", First := "", Last := "", Next := "" }, Jobs := [] }
    rfl

/-! ## Coordinates in `Client.GetGeoLocation` -/

/-- C7 (as stated, refuted): on the non-numeric latitude `abc` the message of the
`APIError` is `invalid latitude format`, not `invalid latitude/longitude format`. -/
theorem getGeoLocation_bad_latitude_message :
    (Client.GetGeoLocation badLatitudeEnv stubClient "Amsterdam").result
      = .error (.api
          { StatusCode := 0, Message := "invalid latitude format"
            Endpoint := "http://stub/api/v1/geolocations/nl/Amsterdam"
            Cause := some ⟨"strconv.ParseFloat: parsing \"abc\": invalid syntax"⟩ }) ∧
    (Client.GetGeoLocation badLatitudeEnv stubClient "Amsterdam").result
      ≠ .error (.api
          { StatusCode := 0, Message := "invalid latitude/longitude format"
            Endpoint := "http://stub/api/v1/geolocations/nl/Amsterdam"
            Cause := some ⟨"strconv.ParseFloat: parsing \"abc\": invalid syntax"⟩ }) := by
  decide

/-- C7 (amended): for a non-empty city name and a successful upstream response decoded to
string coordinates: if both strings parse, `GetGeoLocation` returns the parsed coordinates
and the upstream city name; if the latitude does not parse it returns the `APIError` with
status 0 and message `invalid latitude format` wrapping the parse error; if the latitude
parses and the longitude does not, the same with message `invalid longitude format`. -/
theorem getGeoLocation_coordinates (env : Env) (c : Client) (cityName : String)
    (resp : HttpResponse) (raw : RawGeoLocation)
    (hname : cityName ≠ "")
    (hreq : env.newRequest (c.baseURL ++ "/api/v1/geolocations/nl/" ++ PathEscape cityName)
      = none)
    (hdo : env.httpDo (c.baseURL ++ "/api/v1/geolocations/nl/" ++ PathEscape cityName)
      = .ok resp)
    (hstatus : resp.StatusCode = 200) (hread : resp.ReadErr = none)
    (hjson : env.unmarshalGeoLocation resp.Body = .ok raw) :
    (∀ lat lng : Float64,
      env.parseFloat raw.Latitude = .ok lat → env.parseFloat raw.Longitude = .ok lng →
      (c.GetGeoLocation env cityName).result
        = .ok { CityCenter := { Latitude := lat, Longitude := lng }
                CityName := raw.CityName }) ∧
    (∀ err : GoError, env.parseFloat raw.Latitude = .error err →
      (c.GetGeoLocation env cityName).result
        = .error (.api
            { StatusCode := 0, Message := "invalid latitude format"
              Endpoint := c.baseURL ++ "/api/v1/geolocations/nl/" ++ PathEscape cityName
              Cause := some err })) ∧
    (∀ (lat : Float64) (err : GoError),
      env.parseFloat raw.Latitude = .ok lat → env.parseFloat raw.Longitude = .error err →
      (c.GetGeoLocation env cityName).result
        = .error (.api
            { StatusCode := 0, Message := "invalid longitude format"
              Endpoint := c.baseURL ++ "/api/v1/geolocations/nl/" ++ PathEscape cityName
              Cause := some err })) := by
  have hmk : (makeRequest env (c.baseURL ++ "/api/v1/geolocations/nl/" ++ PathEscape cityName)
      env.unmarshalGeoLocation) = ⟨.ok raw, [c.baseURL ++ "/api/v1/geolocations/nl/"
        ++ PathEscape cityName]⟩ := by
    unfold makeRequest
    rw [hreq, hdo]
    dsimp only
    rw [if_neg (by simpa using hstatus), hread]
    dsimp only
    rw [hjson]
  refine ⟨?_, ?_, ?_⟩
  · intro lat lng hlat hlng
    unfold Client.GetGeoLocation
    rw [if_neg hname]
    dsimp only
    rw [hmk]
    dsimp only
    rw [hlat]
    dsimp only
    rw [hlng]
  · intro err hlat
    unfold Client.GetGeoLocation
    rw [if_neg hname]
    dsimp only
    rw [hmk]
    dsimp only
    rw [hlat]
    rfl
  · intro lat err hlat hlng
    unfold Client.GetGeoLocation
    rw [if_neg hname]
    dsimp only
    rw [hmk]
    dsimp only
    rw [hlat]
    dsimp only
    rw [hlng]
    rfl

/-- C7 (amended), evaluated on the stub upstream: latitude `52.3676` and longitude
`4.9041` become the nearest `float64` values. -/
theorem getGeoLocation_coordinates_witness :
    (Client.GetGeoLocation (stubEnv 200 "") stubClient "Amsterdam").result
      = .ok { CityCenter := { Latitude := .finite false 7370084495196475 (-47)
                              Longitude := .finite false 172547679160841 (-45) }
              CityName := "Amsterdam" } :=
  (getGeoLocation_coordinates (stubEnv 200 "") stubClient "Amsterdam"
      { StatusCode := 200, Body := "", ReadErr := none }
      { Latitude := "52.3676", Longitude := "4.9041", CityName := "Amsterdam" }
      (by decide) rfl rfl rfl rfl rfl).1 _ _ rfl rfl

/-! ## Soft failures in the handlers -/

theorem infix_of_prefixed (pre msg : String) : msg.data <:+: (pre ++ msg).data := by
  rw [String.data_append]
  exact (List.suffix_append _ _).isInfix

/-- C9: each of the four handlers returns a `nil` Go error on every path, and whenever the
client operation it calls returns an error (of either kind) the tool result is an error
result whose text contains the `Error()` message of that error. -/
theorem handlers_soft_failure (env : Env) (h : Handlers) (request : CallToolRequest) :
    (Handlers.SearchFunctionTitles env h request).err = none ∧
    (Handlers.SearchCity env h request).err = none ∧
    (Handlers.GeoLocation env h request).err = none ∧
    (Handlers.FindJobs env h request).err = none ∧
    (∀ (query : String) (e : ClientError),
      request.RequireString "query" = .ok query →
      (h.apiClient.SearchFunctionTitles env query).result = .error e →
      (Handlers.SearchFunctionTitles env h request).result.IsError = true ∧
      e.Error.data <:+: (Handlers.SearchFunctionTitles env h request).result.Text.data) ∧
    (∀ (startsWith : String) (e : ClientError),
      request.RequireString "startsWith" = .ok startsWith →
      (h.apiClient.SearchCities env startsWith).result = .error e →
      (Handlers.SearchCity env h request).result.IsError = true ∧
      e.Error.data <:+: (Handlers.SearchCity env h request).result.Text.data) ∧
    (∀ (cityName : String) (e : ClientError),
      request.RequireString "cityName" = .ok cityName →
      (h.apiClient.GetGeoLocation env cityName).result = .error e →
      (Handlers.GeoLocation env h request).result.IsError = true ∧
      e.Error.data <:+: (Handlers.GeoLocation env h request).result.Text.data) ∧
    (∀ e : ClientError,
      (h.apiClient.FindJobs env (Handlers.findJobsParams request)).result = .error e →
      (Handlers.FindJobs env h request).result.IsError = true ∧
      e.Error.data <:+: (Handlers.FindJobs env h request).result.Text.data) := by
  refine ⟨?_, ?_, ?_, ?_, ?_, ?_, ?_, ?_⟩
  · unfold Handlers.SearchFunctionTitles
    split
    · rfl
    · dsimp only
      split
      · rfl
      · split <;> rfl
  · unfold Handlers.SearchCity
    split
    · rfl
    · dsimp only
      split
      · rfl
      · split <;> rfl
  · unfold Handlers.GeoLocation
    split
    · rfl
    · dsimp only
      split
      · rfl
      · split <;> rfl
  · unfold Handlers.FindJobs
    dsimp only
    split
    · rfl
    · split <;> rfl
  · intro query e hq he
    unfold Handlers.SearchFunctionTitles
    rw [hq]
    dsimp only
    rw [he]
    exact ⟨rfl, infix_of_prefixed _ _⟩
  · intro startsWith e hq he
    unfold Handlers.SearchCity
    rw [hq]
    dsimp only
    rw [he]
    exact ⟨rfl, infix_of_prefixed _ _⟩
  · intro cityName e hq he
    unfold Handlers.GeoLocation
    rw [hq]
    dsimp only
    rw [he]
    exact ⟨rfl, infix_of_prefixed _ _⟩
  · intro e he
    unfold Handlers.FindJobs
    dsimp only
    rw [he]
    exact ⟨rfl, infix_of_prefixed _ _⟩

/-- C9, evaluated on a `search_function_titles` call with the empty query: the tool result
is the error text of the validation error, after the prefix `search failed: `. -/
theorem handlers_soft_failure_witness :
    (Handlers.SearchFunctionTitles (stubEnv 200 "") ⟨stubClient⟩ (stringRequest "")).result
        = { Text := "search failed: validation error for parameter 'query' (value: ): "
              ++ "query cannot be empty"
            IsError := true } ∧
    (ClientError.validation
        { Parameter := "query", Value := .str "", Message := "query cannot be empty" }).Error.data
      <:+: (Handlers.SearchFunctionTitles (stubEnv 200 "") ⟨stubClient⟩
              (stringRequest "")).result.Text.data :=
  ⟨by decide,
   ((handlers_soft_failure (stubEnv 200 "") ⟨stubClient⟩ (stringRequest "")).2.2.2.2.1
      "" _ rfl rfl).2⟩

/-! ## The query built by `Client.FindJobs` -/

theorem lookup_Set_self (v : Values) (k x : String) : (v.Set k x).lookup k = some [x] := by
  simp [Values.Set, Values.lookup]

theorem lookup_Set_of_ne (v : Values) (k k' x : String) (h : k ≠ k') :
    (v.Set k x).lookup k' = v.lookup k' := by
  unfold Values.Set Values.lookup
  rw [List.find?_cons_of_neg _ (by simpa using h)]
  congr 1
  induction v with
  | nil => rfl
  | cons a t ih =>
    by_cases ha : a.1 = k
    · have hk : ¬ a.1 = k' := by rw [ha]; exact h
      rw [List.filter_cons_of_neg (by simpa using ha), ih,
        List.find?_cons_of_neg _ (by simpa using hk)]
    · rw [List.filter_cons_of_pos (by simpa using ha)]
      by_cases hb : a.1 = k'
      · rw [List.find?_cons_of_pos _ (by simpa using hb),
          List.find?_cons_of_pos _ (by simpa using hb)]
      · rw [List.find?_cons_of_neg _ (by simpa using hb),
          List.find?_cons_of_neg _ (by simpa using hb), ih]

theorem findJobsFilters_eq_spec (p : JobSearchParams) :
    findJobsFilters p = specFilterList p := by
  unfold findJobsFilters specFilterList
  by_cases h1 : p.Latitude.neZero = true ∧ p.Longitude.neZero = true <;>
  by_cases h2 : p.City = "" <;> by_cases h3 : p.JobTitle = "" <;>
  simp [h1, h2, h3]

theorem findJobsQuery_lookup_filters (q0 : Values) (p : JobSearchParams) :
    (findJobsQuery q0 p).lookup "filters" =
      if specFilterList p = [] then q0.lookup "filters"
      else some [" ".intercalate (specFilterList p)] := by
  unfold findJobsQuery
  dsimp only
  rw [findJobsFilters_eq_spec]
  by_cases h : specFilterList p = []
  · rw [if_pos h, h]
    rw [if_neg (by simp)]
    rw [lookup_Set_of_ne _ _ _ _ (by decide), lookup_Set_of_ne _ _ _ _ (by decide),
      lookup_Set_of_ne _ _ _ _ (by decide)]
  · rw [if_neg h, if_pos (by simpa using List.length_pos.mpr h), lookup_Set_self]

theorem findJobsQuery_lookup_fixed (q0 : Values) (p : JobSearchParams) :
    (findJobsQuery q0 p).lookup "page" = some [toString p.Page] ∧
    (findJobsQuery q0 p).lookup "limit" = some [toString p.Limit] ∧
    (findJobsQuery q0 p).lookup "sort" = some [p.SortKey] := by
  unfold findJobsQuery
  dsimp only
  split
  · refine ⟨?_, ?_, ?_⟩
    · rw [lookup_Set_of_ne _ _ _ _ (by decide), lookup_Set_of_ne _ _ _ _ (by decide),
        lookup_Set_of_ne _ _ _ _ (by decide), lookup_Set_self]
    · rw [lookup_Set_of_ne _ _ _ _ (by decide), lookup_Set_of_ne _ _ _ _ (by decide),
        lookup_Set_self]
    · rw [lookup_Set_of_ne _ _ _ _ (by decide), lookup_Set_self]
  · refine ⟨?_, ?_, ?_⟩
    · rw [lookup_Set_of_ne _ _ _ _ (by decide), lookup_Set_of_ne _ _ _ _ (by decide),
        lookup_Set_self]
    · rw [lookup_Set_of_ne _ _ _ _ (by decide), lookup_Set_self]
    · rw [lookup_Set_self]

/-- The test `params.Latitude != 0 && params.Longitude != 0` treats a latitude of exactly 0
as absent: with latitude 0 and longitude 4.89 no geolocation clause is built and no
`filters` value is set, although the comment above the test reads "if both latitude and
longitude are provided". -/
theorem findJobsFilters_zero_latitude :
    findJobsFilters zeroLatitudeParams = [] ∧
    (findJobsQuery [] zeroLatitudeParams).lookup "filters" = none := by
  decide

/-- C2 (as stated, refuted): with the base URL `http://stub?filters=x` the filter list of
`boundaryParams` is empty, yet the query built by `Client.FindJobs` has a `filters` value,
the one `u.Query()` found in the base URL, and the request carries it. -/
theorem findJobs_filters_from_base_url :
    1 ≤ boundaryParams.Page ∧ 1 ≤ boundaryParams.Limit ∧ boundaryParams.Limit ≤ 100 ∧
    specFilterList boundaryParams = [] ∧
    (findJobsQuery [("filters", ["x/api/jobs/v3/sites/nationalevacaturebank.nl/jobs"])]
        boundaryParams).lookup "filters"
      = some ["x/api/jobs/v3/sites/nationalevacaturebank.nl/jobs"] ∧
    (Client.FindJobs (stubEnv 200 "") { baseURL := "http://stub?filters=x" }
        boundaryParams).requests
      = ["http://stub?filters=x%2Fapi%2Fjobs%2Fv3%2Fsites%2Fnationalevacaturebank.nl%2Fjobs"
          ++ "&limit=100&page=1&sort=relevance"] := by
  decide

/-- C2 (amended): for parameters that pass validation and a base URL that parses to `u`,
`Client.FindJobs` requests the URL carrying the query that sets `page`, `limit` and `sort`;
when the list of clauses (geolocation triple, city, job title, in that order) is not empty
the `filters` value is its single-space join; when it is empty the `filters` value is the
one of the base URL, so that for a base URL without a `filters` value the parameter is
absent exactly when the list is empty.  Latitude 52.37, longitude 4.89, distance 10 with
empty city and job title give `latitude:52.370000 longitude:4.890000 distance:10`; a zero
latitude and longitude give no geolocation clause, whatever the distance. -/
theorem findJobs_query (env : Env) (c : Client) (p : JobSearchParams) (u : ParsedURL)
    (h1 : 1 ≤ p.Page) (h2 : 1 ≤ p.Limit) (h3 : p.Limit ≤ 100)
    (hu : env.urlParse (c.baseURL ++ "/api/jobs/v3/sites/nationalevacaturebank.nl/jobs")
      = .ok u) :
    c.FindJobs env p
      = (makeRequest env (u.StringWith (findJobsQuery u.Query p).Encode)
          env.unmarshalJobs).asClient ∧
    findJobsFilters p = specFilterList p ∧
    (findJobsQuery u.Query p).lookup "page" = some [toString p.Page] ∧
    (findJobsQuery u.Query p).lookup "limit" = some [toString p.Limit] ∧
    (findJobsQuery u.Query p).lookup "sort" = some [p.SortKey] ∧
    (specFilterList p ≠ [] →
      (findJobsQuery u.Query p).lookup "filters"
        = some [" ".intercalate (specFilterList p)]) ∧
    (specFilterList p = [] →
      (findJobsQuery u.Query p).lookup "filters" = u.Query.lookup "filters") ∧
    (u.Query.lookup "filters" = none →
      ((findJobsQuery u.Query p).lookup "filters" = none ↔ specFilterList p = [])) ∧
    (p.Latitude = lat5237 → p.Longitude = lng489 → p.Distance = .finite false 5 1 →
      p.City = "" → p.JobTitle = "" →
      (findJobsQuery u.Query p).lookup "filters"
        = some ["latitude:52.370000 longitude:4.890000 distance:10"]) ∧
    (p.Latitude.neZero = false → p.Longitude.neZero = false →
      specFilterList p
        = (if p.City ≠ "" then ["city:" ++ p.City] else [])
          ++ (if p.JobTitle ≠ "" then ["dcoTitle:" ++ p.JobTitle] else [])) := by
  refine ⟨?_, findJobsFilters_eq_spec p, (findJobsQuery_lookup_fixed _ p).1,
    (findJobsQuery_lookup_fixed _ p).2.1, (findJobsQuery_lookup_fixed _ p).2.2, ?_, ?_, ?_, ?_,
    ?_⟩
  · rw [findJobs_of_valid env c p h1 h2 h3, hu]
  · intro h
    rw [findJobsQuery_lookup_filters, if_neg h]
  · intro h
    rw [findJobsQuery_lookup_filters, if_pos h]
  · intro h0
    rw [findJobsQuery_lookup_filters]
    by_cases h : specFilterList p = []
    · rw [if_pos h, h0]
      exact ⟨fun _ => h, fun _ => rfl⟩
    · rw [if_neg h]
      exact ⟨fun hh => by simp at hh, fun hh => absurd hh h⟩
  · intro hlat hlng hdist hcity htitle
    have hspec : specFilterList p
        = ["latitude:52.370000", "longitude:4.890000", "distance:10"] := by
      simp only [specFilterList, hlat, hlng, hdist, hcity, htitle]
      decide
    rw [findJobsQuery_lookup_filters, hspec, if_neg (by decide)]
    decide
  · intro hlat hlng
    simp [specFilterList, hlat]

/-- C2 (amended), evaluated on the stub upstream for latitude 52.37, longitude 4.89 and
distance 10. -/
theorem findJobs_query_witness :
    (findJobsQuery [] geoParams).lookup "filters"
      = some ["latitude:52.370000 longitude:4.890000 distance:10"] :=
  (findJobs_query (stubEnv 200 "") stubClient geoParams
      { Query := []
        StringWith := fun raw =>
          if raw = "" then "http://stub/api/jobs/v3/sites/nationalevacaturebank.nl/jobs"
          else "http://stub/api/jobs/v3/sites/nationalevacaturebank.nl/jobs" ++ "?" ++ raw }
      (by decide) (by decide) (by decide) rfl).2.2.2.2.2.2.2.2.1 rfl rfl rfl rfl rfl

/-! ## Query escaping in `Client.SearchFunctionTitles` -/

theorem toNat_ofNat_ascii : ∀ b < 128, (Char.ofNat b).toNat = b := by decide

theorem char_toNat_lt (c : Char) : c.toNat < 0x110000 := by
  have h := c.valid
  unfold UInt32.isValidChar Nat.isValidChar at h
  unfold Char.toNat
  omega

theorem utf8EncodeChar_lt (c : Char) : ∀ b ∈ utf8EncodeChar c, b < 256 := by
  have hc := char_toNat_lt c
  intro b hb
  simp only [utf8EncodeChar] at hb
  split_ifs at hb <;> simp at hb <;> omega

theorem utf8Bytes_lt (s : String) : ∀ b ∈ utf8Bytes s, b < 256 := by
  intro b hb
  simp only [utf8Bytes, List.mem_flatMap] at hb
  obtain ⟨c, _, hc⟩ := hb
  exact utf8EncodeChar_lt c b hc

theorem utf8Bytes_append (s t : String) : utf8Bytes (s ++ t) = utf8Bytes s ++ utf8Bytes t := by
  simp [utf8Bytes, String.data_append, List.flatMap_append]

theorem utf8Bytes_asciiString (bs : List Nat) (h : ∀ b ∈ bs, b < 128) :
    utf8Bytes (asciiString bs) = bs := by
  induction bs with
  | nil => rfl
  | cons b t ih =>
    have hb : b < 128 := h b (List.mem_cons_self _ _)
    have ht : ∀ x ∈ t, x < 128 := fun x hx => h x (List.mem_cons_of_mem _ hx)
    have ih' := ih ht
    simp only [utf8Bytes, asciiString, List.map_cons, List.flatMap_cons] at ih' ⊢
    rw [ih']
    simp [utf8EncodeChar, toNat_ofNat_ascii b hb, hb]

set_option maxRecDepth 100000 in
theorem escapeByte_cases : ∀ c < 256,
    (c = 32 ∧ escapeByte .encodeQueryComponent c = [43]) ∨
    (escapeByte .encodeQueryComponent c = [37, upperhex (c / 16), upperhex (c % 16)] ∧
      ishex (upperhex (c / 16)) = true ∧ ishex (upperhex (c % 16)) = true ∧
      unhex (upperhex (c / 16)) * 16 + unhex (upperhex (c % 16)) = c) ∨
    (escapeByte .encodeQueryComponent c = [c] ∧ c ≠ 37 ∧ c ≠ 43) := by
  decide

set_option maxRecDepth 100000 in
theorem escapeByte_safe : ∀ c < 256, ∀ b ∈ escapeByte .encodeQueryComponent c,
    b < 128 ∧ b ≠ 32 ∧ b ≠ 35 ∧ b ≠ 38 ∧ b ≠ 47 ∧ b ≠ 59 ∧ b ≠ 61 ∧ b ≠ 63 := by
  decide

theorem unescape_cons (mode : encoding) (c : Nat) (rest : List Nat) :
    unescape mode (c :: rest) =
      if c = 37 then
        match rest with
        | d :: e :: rest' =>
          if ishex d && ishex e then
            (unescape mode rest').map (fun t => (unhex d * 16 + unhex e) :: t)
          else .error [c, d, e]
        | _ => .error (c :: rest)
      else
        (unescape mode rest).map
          (fun t => (if c = 43 ∧ mode = .encodeQueryComponent then 32 else c) :: t) := by
  cases rest with
  | nil => rfl
  | cons d r =>
    cases r with
    | nil => rfl
    | cons e r' => rfl

theorem unescape_escapeByte (c : Nat) (hc : c < 256) (rest : List Nat) :
    unescape .encodeQueryComponent (escapeByte .encodeQueryComponent c ++ rest)
      = (unescape .encodeQueryComponent rest).map (fun t => c :: t) := by
  rcases escapeByte_cases c hc with ⟨h32, h⟩ | ⟨h, hh, hl, hv⟩ | ⟨h, h37, h43⟩
  · rw [h, List.singleton_append, unescape_cons, if_neg (by decide), if_pos ⟨rfl, rfl⟩, h32]
  · rw [h]
    show unescape .encodeQueryComponent (37 :: upperhex (c / 16) :: upperhex (c % 16) :: rest) = _
    rw [unescape_cons, if_pos rfl]
    dsimp only
    rw [hh, hl, hv]
    rfl
  · rw [h, List.singleton_append, unescape_cons, if_neg h37, if_neg (fun hh => h43 hh.1)]

theorem unescape_escape (bs : List Nat) (h : ∀ b ∈ bs, b < 256) :
    unescape .encodeQueryComponent (escape bs .encodeQueryComponent) = .ok bs := by
  induction bs with
  | nil => rfl
  | cons b t ih =>
    have hb : b < 256 := h b (List.mem_cons_self _ _)
    have ht : ∀ x ∈ t, x < 256 := fun x hx => h x (List.mem_cons_of_mem _ hx)
    have e : escape (b :: t) .encodeQueryComponent
        = escapeByte .encodeQueryComponent b ++ escape t .encodeQueryComponent := by
      simp [escape, List.flatMap_cons]
    rw [e, unescape_escapeByte b hb, ih ht]
    rfl

theorem escape_safe (bs : List Nat) (h : ∀ b ∈ bs, b < 256) :
    ∀ b ∈ escape bs .encodeQueryComponent,
      b < 128 ∧ b ≠ 32 ∧ b ≠ 35 ∧ b ≠ 38 ∧ b ≠ 47 ∧ b ≠ 59 ∧ b ≠ 61 ∧ b ≠ 63 := by
  intro b hb
  simp only [escape, List.mem_flatMap] at hb
  obtain ⟨c, hc, hbc⟩ := hb
  exact escapeByte_safe c (h c hc) b hbc

theorem QueryUnescape_QueryEscape (q : String) :
    QueryUnescape (QueryEscape q) = .ok (utf8Bytes q) := by
  unfold QueryUnescape QueryEscape
  rw [utf8Bytes_asciiString _ (fun b hb => (escape_safe _ (utf8Bytes_lt q) b hb).1)]
  exact unescape_escape _ (utf8Bytes_lt q)

theorem QueryEscape_chars (q : String) :
    ∀ ch ∈ (QueryEscape q).data,
      ch ≠ ' ' ∧ ch ≠ '&' ∧ ch ≠ '/' ∧ ch ≠ '=' ∧ ch ≠ '?' ∧ ch ≠ '#' := by
  intro ch hch
  simp only [QueryEscape, asciiString, List.mem_map] at hch
  obtain ⟨b, hb, rfl⟩ := hch
  obtain ⟨h128, h32, h35, h38, h47, _, h61, h63⟩ := escape_safe _ (utf8Bytes_lt q) b hb
  have key : ∀ n : Nat, n < 128 → b ≠ n → Char.ofNat b ≠ Char.ofNat n := by
    intro n hn hne heq
    apply hne
    rw [← toNat_ofNat_ascii b h128, ← toNat_ofNat_ascii n hn, heq]
  exact ⟨key 32 (by decide) h32, key 38 (by decide) h38, key 47 (by decide) h47,
    key 61 (by decide) h61, key 63 (by decide) h63, key 35 (by decide) h35⟩

theorem splitAmpersand_of_not_mem (l : List Nat) (h : 38 ∉ l) : splitAmpersand l = [l] := by
  induction l with
  | nil => rfl
  | cons c t ih =>
    have hc : c ≠ 38 := fun hh => h (hh ▸ List.mem_cons_self _ _)
    have ht : 38 ∉ t := fun hh => h (List.mem_cons_of_mem _ hh)
    rw [splitAmpersand, if_neg hc, ih ht]

theorem ParseQuery_query (q : String) :
    ParseQuery (utf8Bytes ("query=" ++ QueryEscape q)) = [(utf8Bytes "query", utf8Bytes q)] := by
  have hsafe := escape_safe _ (utf8Bytes_lt q)
  have hesc : utf8Bytes (QueryEscape q) = escape (utf8Bytes q) .encodeQueryComponent :=
    utf8Bytes_asciiString _ (fun b hb => (hsafe b hb).1)
  have hpre : utf8Bytes "query=" = [113, 117, 101, 114, 121, 61] := by decide
  have hkey : utf8Bytes "query" = [113, 117, 101, 114, 121] := by decide
  rw [utf8Bytes_append, hesc, hpre, hkey]
  have h38 : 38 ∉ [113, 117, 101, 114, 121, 61] ++ escape (utf8Bytes q) .encodeQueryComponent := by
    intro hm
    rcases List.mem_append.mp hm with hm | hm
    · revert hm; decide
    · exact (hsafe 38 hm).2.2.2.1 rfl
  have h59 : 59 ∉ [113, 117, 101, 114, 121, 61] ++ escape (utf8Bytes q) .encodeQueryComponent := by
    intro hm
    rcases List.mem_append.mp hm with hm | hm
    · revert hm; decide
    · exact (hsafe 59 hm).2.2.2.2.2.1 rfl
  unfold ParseQuery
  rw [splitAmpersand_of_not_mem _ h38]
  simp only [List.filterMap_cons, List.filterMap_nil]
  rw [if_neg (by
    intro hh
    rcases hh with hh | hh
    · simp at hh
    · exact h59 hh)]
  have hk : unescape .encodeQueryComponent [113, 117, 101, 114, 121] = .ok [113, 117, 101, 114, 121] := by
    decide
  simp [List.takeWhile, List.dropWhile, hk, unescape_escape _ (utf8Bytes_lt q)]

theorem takeWhile_ne_of_not_mem (x : Nat) (l : List Nat) (h : x ∉ l) :
    l.takeWhile (fun b => b != x) = l := by
  induction l with
  | nil => rfl
  | cons a t ih =>
    have ha : a ≠ x := fun hh => h (hh ▸ List.mem_cons_self _ _)
    have ht : x ∉ t := fun hh => h (List.mem_cons_of_mem _ hh)
    rw [List.takeWhile_cons_of_pos (by simpa using ha), ih ht]

theorem dropWhile_ne_append (x : Nat) (l r : List Nat) (h : x ∉ l) :
    (l ++ x :: r).dropWhile (fun b => b != x) = x :: r := by
  induction l with
  | nil => simp [List.dropWhile]
  | cons a t ih =>
    have ha : a ≠ x := fun hh => h (hh ▸ List.mem_cons_self _ _)
    have ht : x ∉ t := fun hh => h (List.mem_cons_of_mem _ hh)
    rw [List.cons_append, List.dropWhile_cons_of_pos (by simpa using ha), ih ht]

theorem requestRawQuery_functionTitles (base q : String)
    (h63 : 63 ∉ utf8Bytes base) (h35 : 35 ∉ utf8Bytes base) :
    requestRawQuery (utf8Bytes
        (base ++ "/api/jobs/v3/sites/nationalevacaturebank.nl/function-titles?query="
          ++ QueryEscape q))
      = utf8Bytes ("query=" ++ QueryEscape q) := by
  have hsafe := escape_safe _ (utf8Bytes_lt q)
  have hesc : utf8Bytes (QueryEscape q) = escape (utf8Bytes q) .encodeQueryComponent :=
    utf8Bytes_asciiString _ (fun b hb => (hsafe b hb).1)
  have hlit : utf8Bytes "/api/jobs/v3/sites/nationalevacaturebank.nl/function-titles?query="
      = utf8Bytes "/api/jobs/v3/sites/nationalevacaturebank.nl/function-titles"
        ++ 63 :: utf8Bytes "query=" := by decide
  have hp63 : 63 ∉ utf8Bytes "/api/jobs/v3/sites/nationalevacaturebank.nl/function-titles" := by
    decide
  have hp35 : 35 ∉ utf8Bytes "/api/jobs/v3/sites/nationalevacaturebank.nl/function-titles" := by
    decide
  have hq35 : 35 ∉ utf8Bytes "query=" := by decide
  have hshape : utf8Bytes
        (base ++ "/api/jobs/v3/sites/nationalevacaturebank.nl/function-titles?query="
          ++ QueryEscape q)
      = (utf8Bytes base
          ++ utf8Bytes "/api/jobs/v3/sites/nationalevacaturebank.nl/function-titles")
        ++ 63 :: utf8Bytes ("query=" ++ QueryEscape q) := by
    rw [utf8Bytes_append, utf8Bytes_append, hlit, utf8Bytes_append]
    simp [List.append_assoc]
  have hno35 : 35 ∉ (utf8Bytes base
          ++ utf8Bytes "/api/jobs/v3/sites/nationalevacaturebank.nl/function-titles")
        ++ 63 :: utf8Bytes ("query=" ++ QueryEscape q) := by
    intro hm
    rcases List.mem_append.mp hm with hm | hm
    · rcases List.mem_append.mp hm with hm | hm
      · exact h35 hm
      · exact hp35 hm
    · rcases List.mem_cons.mp hm with hm | hm
      · exact absurd hm (by decide)
      · rw [utf8Bytes_append, hesc] at hm
        rcases List.mem_append.mp hm with hm | hm
        · exact hq35 hm
        · exact (hsafe 35 hm).2.2.1 rfl
  have hno63 : 63 ∉ utf8Bytes base
      ++ utf8Bytes "/api/jobs/v3/sites/nationalevacaturebank.nl/function-titles" := by
    intro hm
    rcases List.mem_append.mp hm with hm | hm
    · exact h63 hm
    · exact hp63 hm
  unfold requestRawQuery
  rw [hshape, takeWhile_ne_of_not_mem 35 _ hno35, dropWhile_ne_append 63 _ _ hno63]
  rfl

/-- C8 (as stated, refuted): with the base URL `http://stub?filters=x` and the query `dev`,
the raw query of the requested URL parses to a single parameter named `filters`, not to
the parameter `query` with value `dev`. -/
theorem searchFunctionTitles_base_with_query :
    "dev" ≠ "" ∧
    (Client.SearchFunctionTitles (stubEnv 200 "") { baseURL := "http://stub?filters=x" }
        "dev").requests
      = ["http://stub?filters=x/api/jobs/v3/sites/nationalevacaturebank.nl/function-titles"
          ++ "?query=dev"] ∧
    ParseQuery (requestRawQuery (utf8Bytes
        ("http://stub?filters=x/api/jobs/v3/sites/nationalevacaturebank.nl/function-titles"
          ++ "?query=dev")))
      = [(utf8Bytes "filters",
          utf8Bytes ("x/api/jobs/v3/sites/nationalevacaturebank.nl/function-titles"
            ++ "?query=dev"))] ∧
    ParseQuery (requestRawQuery (utf8Bytes
        ("http://stub?filters=x/api/jobs/v3/sites/nationalevacaturebank.nl/function-titles"
          ++ "?query=dev")))
      ≠ [(utf8Bytes "query", utf8Bytes "dev")] := by
  decide

/-- C8 (amended): for every non-empty query `q`, `SearchFunctionTitles` requests the URL
`base ++ "/api/jobs/v3/sites/nationalevacaturebank.nl/function-titles?query=" ++
QueryEscape q`; the escaped value contains none of the characters space, `&`, `/`, `=`,
`?`, `#`; unescaping it yields the bytes of `q`; the query string `query=<escaped>` parses
to the single parameter `query` with value `q`; and when the base URL contains neither `?`
nor `#`, that query string is the raw query of the requested URL, so the upstream receives
the single parameter `query` with value `q`. -/
theorem searchFunctionTitles_query_escaping (env : Env) (c : Client) (q : String)
    (hq : q ≠ "") :
    c.SearchFunctionTitles env q
      = (makeRequest env
          (c.baseURL ++ "/api/jobs/v3/sites/nationalevacaturebank.nl/function-titles?query="
            ++ QueryEscape q)
          env.unmarshalFunctionTitles).asClient ∧
    (env.newRequest
        (c.baseURL ++ "/api/jobs/v3/sites/nationalevacaturebank.nl/function-titles?query="
          ++ QueryEscape q) = none →
      (c.SearchFunctionTitles env q).requests
        = [c.baseURL ++ "/api/jobs/v3/sites/nationalevacaturebank.nl/function-titles?query="
            ++ QueryEscape q]) ∧
    (∀ ch ∈ (QueryEscape q).data,
      ch ≠ ' ' ∧ ch ≠ '&' ∧ ch ≠ '/' ∧ ch ≠ '=' ∧ ch ≠ '?' ∧ ch ≠ '#') ∧
    QueryUnescape (QueryEscape q) = .ok (utf8Bytes q) ∧
    ParseQuery (utf8Bytes ("query=" ++ QueryEscape q))
      = [(utf8Bytes "query", utf8Bytes q)] ∧
    (63 ∉ utf8Bytes c.baseURL → 35 ∉ utf8Bytes c.baseURL →
      ParseQuery (requestRawQuery (utf8Bytes
          (c.baseURL ++ "/api/jobs/v3/sites/nationalevacaturebank.nl/function-titles?query="
            ++ QueryEscape q)))
        = [(utf8Bytes "query", utf8Bytes q)]) := by
  have hdef : c.SearchFunctionTitles env q
      = (makeRequest env
          (c.baseURL ++ "/api/jobs/v3/sites/nationalevacaturebank.nl/function-titles?query="
            ++ QueryEscape q)
          env.unmarshalFunctionTitles).asClient := by
    unfold Client.SearchFunctionTitles
    rw [if_neg hq]
  refine ⟨hdef, ?_, QueryEscape_chars q, QueryUnescape_QueryEscape q, ParseQuery_query q, ?_⟩
  · intro hreq
    rw [hdef, asClient_requests, makeRequest_requests env _ _ hreq]
  · intro h63 h35
    rw [requestRawQuery_functionTitles c.baseURL q h63 h35]
    exact ParseQuery_query q

/-- C8 (amended), evaluated on the stub upstream for the query `a b&c/d`. -/
theorem searchFunctionTitles_query_escaping_witness :
    "a b&c/d" ≠ "" ∧
    (Client.SearchFunctionTitles (stubEnv 200 "") stubClient "a b&c/d").requests
      = ["http://stub/api/jobs/v3/sites/nationalevacaturebank.nl/function-titles"
          ++ "?query=a+b%26c%2Fd"] ∧
    QueryUnescape "a+b%26c%2Fd" = .ok [97, 32, 98, 38, 99, 47, 100] ∧
    ParseQuery (requestRawQuery (utf8Bytes
        ("http://stub/api/jobs/v3/sites/nationalevacaturebank.nl/function-titles"
          ++ "?query=a+b%26c%2Fd")))
      = [([113, 117, 101, 114, 121], [97, 32, 98, 38, 99, 47, 100])] :=
  ⟨by decide,
   (searchFunctionTitles_query_escaping (stubEnv 200 "") stubClient "a b&c/d"
      (by decide)).2.1 rfl,
   (searchFunctionTitles_query_escaping (stubEnv 200 "") stubClient "a b&c/d"
      (by decide)).2.2.2.1,
   (searchFunctionTitles_query_escaping (stubEnv 200 "") stubClient "a b&c/d"
      (by decide)).2.2.2.2.2 (by decide) (by decide)⟩

end NVB
